import Mathlib

/-!
Shallow embedding of the heroesApp signup/login backend (routes/users.js,
the authoritative variant) in Lean 4.

The embedding models the database tables as lists of rows, time as
milliseconds since the epoch (a `Nat`), and each route handler as a pure
function from the database state and the request fields to a response and
the successor state.  External collaborators (the `validator.isEmail`
library predicate and the bcrypt hash/compare pair) are passed in as
function parameters.  The `sanitizeInput` middleware is out of scope: the
handler functions model the handler bodies, and every concrete input used
below contains no character that `validator.escape` rewrites.
-/

namespace HeroesApp

/-- A row of the external registry table (`test_table`). -/
structure Hero where
  ndx : Nat
  firstname : String
  lastname : String
  afpsn : String
  /-- DOB is modelled as a date-only string, so the SQL `DATE(...)`
  truncation is the identity. -/
  dob : String
  typ : String
  ctrlnr : String
deriving Repr, DecidableEq

/-- A row of `pensioners_tbl` (the profile table). -/
structure Pensioner where
  id : Nat
  hero_ndx : Option Nat
  typ : String
  bos : Option String
  b_type : Option String
  principal_firstname : Option String
  principal_lastname : Option String
deriving Repr, DecidableEq

/-- A row of `users_tbl` (the credential table). -/
structure UserRow where
  id : Nat
  pensioner_ndx : Nat
  email : String
  password_hash : String
  status : String
deriving Repr, DecidableEq

/-- The JSON payload stored with a validation token.  Fields that a given
step does not set are `none` (matching the explicit `null`s the code
writes). -/
structure TokenData where
  typ : String
  afpsn : String
  bos : Option String
  b_type : Option String
  principal_first_name : Option String
  principal_last_name : Option String
  step : Nat
  firstname : Option String
  lastname : Option String
  dob : Option String
  hero_ndx : Option Nat
  hero_ctrl_nr : Option String
deriving Repr, DecidableEq

/-- A row of `signup_tokens`.  `data = none` models a stored payload that
fails to deserialize (`JSON.parse` throwing). -/
structure TokenRow where
  token : String
  data : Option TokenData
  expires_at : Nat
  created_at : Nat
deriving Repr, DecidableEq

/-- The whole database state. -/
structure DB where
  heroes : List Hero
  pensioners : List Pensioner
  users : List UserRow
  tokens : List TokenRow
deriving Repr, DecidableEq

/-- The observable part of a JSON response: HTTP status, the `success`
flag, the machine-readable `code` (absent on success responses), and the
body fields the specification talks about. -/
structure Response where
  status : Nat
  success : Bool
  code : Option String
  token : Option String
  recordsFound : Option Nat
  validUntil : Option Nat
  userId : Option Nat
  userEmail : Option String
  userStatus : Option String
deriving Repr, DecidableEq

def errResponse (status : Nat) (code : String) : Response :=
  { status := status, success := false, code := some code, token := none,
    recordsFound := none, validUntil := none, userId := none,
    userEmail := none, userStatus := none }

def successResponse : Response :=
  { status := 200, success := true, code := none, token := none,
    recordsFound := none, validUntil := none, userId := none,
    userEmail := none, userStatus := none }

/-- JavaScript falsiness of an optional string field (`undefined`, `null`
or the empty string). -/
def falsy : Option String → Bool
  | Option.none => true
  | Option.some s => s == ""

/-- Strip leading and trailing whitespace from a character list. -/
def trimChars (l : List Char) : List Char :=
  ((l.dropWhile Char.isWhitespace).reverse.dropWhile Char.isWhitespace).reverse

/-- JavaScript `String.prototype.trim`. -/
def jsTrim (s : String) : String := String.mk (trimChars s.toList)

/-- JavaScript `String.prototype.toUpperCase` (ASCII inputs). -/
def jsUpper (s : String) : String := String.mk (s.toList.map Char.toUpper)

/-- JavaScript `String.prototype.toLowerCase` (ASCII inputs). -/
def jsLower (s : String) : String := String.mk (s.toList.map Char.toLower)

/-- `trim().toUpperCase()`, the normalization applied to identity fields. -/
def norm (s : String) : String := jsUpper (jsTrim s)

/-- The characters stripped by `filterPassword`
(`/[<>;"'`\\]/g`, see the source). -/
def filteredChars : List Char := ['<', '>', ';', '\x22', '\x27', '\x60', '\x5c']

/-- `filterPassword`: removes the blacklisted characters and trims. -/
def filterPassword (password : String) : String :=
  jsTrim (String.mk (password.toList.filter (fun c => !(filteredChars.contains c))))

/-- The special characters accepted by the password policy
(`/[!@#$%^&*(),.?":{}|<>]/`). -/
def specialChars : List Char :=
  ['!', '@', '#', '$', '%', '^', '&', '*', '(', ')', ',', '.', '?',
   '\x22', ':', '\x7b', '\x7d', '|', '<', '>']

/-- `/(.)\1{2,}/`: three or more equal consecutive characters. -/
def hasRun3 : List Char → Bool
  | a :: b :: c :: rest => (a == b && b == c) || hasRun3 (b :: c :: rest)
  | _ => false

/-- The denylist of `/^(123456|password|qwerty|abc123|admin|letmein)/i`. -/
def commonPatternList : List String :=
  ["123456", "password", "qwerty", "abc123", "admin", "letmein"]

/-- The individual rules of `validatePasswordStrength`, standing for the
error messages the source pushes. -/
inductive PwError
  | tooShort
  | tooLong
  | noNumber
  | noLetter
  | noSpecial
  | repeatedChars
  | commonPattern
deriving Repr, DecidableEq

structure PwCheck where
  isValid : Bool
  errors : List PwError
deriving Repr, DecidableEq

def validatePasswordStrength (password : String) : PwCheck :=
  let hasNumber := password.toList.any Char.isDigit
  let hasLetter := password.toList.any Char.isAlpha
  let hasSpecialChar := password.toList.any (fun c => specialChars.contains c)
  let hasMinLength := decide (8 ≤ password.length)
  let hasMaxLength := decide (password.length ≤ 128)
  let noRepeatedChars := !(hasRun3 password.toList)
  let noCommonPatterns :=
    !(commonPatternList.any (fun s => List.isPrefixOf s.toList (jsLower password).toList))
  { isValid := hasMinLength && hasMaxLength && hasNumber && hasLetter &&
      hasSpecialChar && noRepeatedChars && noCommonPatterns,
    errors :=
      (if hasMinLength then [] else [PwError.tooShort]) ++
      (if hasMaxLength then [] else [PwError.tooLong]) ++
      (if hasNumber then [] else [PwError.noNumber]) ++
      (if hasLetter then [] else [PwError.noLetter]) ++
      (if hasSpecialChar then [] else [PwError.noSpecial]) ++
      (if noRepeatedChars then [] else [PwError.repeatedChars]) ++
      (if noCommonPatterns then [] else [PwError.commonPattern]) }

/-! ## Validation-token store -/

/-- `ON DUPLICATE KEY UPDATE` upsert keyed on the token value. -/
def upsertToken (rows : List TokenRow) (r : TokenRow) : List TokenRow :=
  if rows.any (fun x => x.token == r.token) then
    rows.map (fun x => if x.token == r.token then r else x)
  else rows ++ [r]

/-- The default of the `expiresInHours = 2` parameter of
`storeValidationToken`, applied at every call site that omits the
argument. -/
def storeValidationTokenDefaultHours : Nat := 2

/-- `storeValidationToken`: persists the payload with
`expires_at = now + expiresInHours` (milliseconds). -/
def storeValidationToken (db : DB) (now : Nat) (token : String)
    (data : TokenData) (expiresInHours : Nat) : DB :=
  let expiresAt := now + expiresInHours * 60 * 60 * 1000
  let row : TokenRow :=
    { token := token
      data := some data
      expires_at := expiresAt
      created_at := now }
  { db with tokens := upsertToken db.tokens row }

/-- The three failure modes of `getValidationToken`, standing for the
distinct error messages the source throws. -/
inductive TokenErr
  | notFound
  | expired
  | corrupt
deriving Repr, DecidableEq

/-- `getValidationToken`: selects the row whose `expires_at > NOW()`;
when none matches, a second query distinguishes an expired row from a
missing one; an undeserializable payload is a third failure. -/
def getValidationToken (db : DB) (now : Nat) (token : String) :
    Except TokenErr TokenData :=
  match db.tokens.filter (fun r => r.token == token && decide (now < r.expires_at)) with
  | [] =>
    match db.tokens.filter (fun r => r.token == token) with
    | [] => Except.error TokenErr.notFound
    | _ :: _ => Except.error TokenErr.expired
  | r :: _ =>
    match r.data with
    | Option.none => Except.error TokenErr.corrupt
    | Option.some d => Except.ok d

/-! ## Step 1: eligibility check -/

/-- The `users_tbl ⋈ pensioners_tbl ⋈ test_table` join of step 1's
already-linked-account check, restricted to a normalized serial and
category. -/
def accountsForAfpsn (db : DB) (na t : String) : List UserRow :=
  db.users.filter (fun u =>
    db.pensioners.any (fun p => p.id == u.pensioner_ndx &&
      db.heroes.any (fun h =>
        p.hero_ndx == some h.ndx && norm h.afpsn == na && h.typ == t)))

/-- `handleStep1`.  `freshToken` stands for the `crypto.randomBytes`
value generated for this request. -/
def handleStep1 (db : DB) (now : Nat) (freshToken : String)
    (type afpsn bos b_type principal_first_name principal_last_name :
      Option String) : Response × DB :=
  if falsy type || falsy afpsn then
    (errResponse 400 "MISSING_REQUIRED_FIELDS", db)
  else
    let t := type.getD ""
    let a := afpsn.getD ""
    if !(t == "P" || t == "B") then (errResponse 400 "INVALID_TYPE", db)
    else if t == "P" && falsy bos then (errResponse 400 "MISSING_BOS", db)
    else if t == "B" &&
        (falsy b_type || falsy principal_first_name ||
         falsy principal_last_name) then
      (errResponse 400 "MISSING_BENEFICIARY_INFO", db)
    else
      let na := norm a
      let count := db.heroes.countP
        (fun h => norm h.afpsn == na && h.typ == t)
      if count == 0 then (errResponse 404 "AFPSN_NOT_FOUND", db)
      else if !(accountsForAfpsn db na t).isEmpty then
        (errResponse 409 "ACCOUNT_EXISTS", db)
      else
        let tokenData : TokenData :=
          { typ := t, afpsn := na,
            bos := if t == "P" then bos.map norm else none,
            b_type := if falsy b_type then none else b_type,
            principal_first_name :=
              if t == "B" then principal_first_name.map norm else none,
            principal_last_name :=
              if t == "B" then principal_last_name.map norm else none,
            step := 1, firstname := none, lastname := none, dob := none,
            hero_ndx := none, hero_ctrl_nr := none }
        -- the source calls storeValidationToken without the hours
        -- argument here, so the default of 2 applies
        let db2 := storeValidationToken db now freshToken tokenData
          storeValidationTokenDefaultHours
        ({ successResponse with
            token := some freshToken
            recordsFound := some count
            validUntil := some (now + 3600000) }, db2)

/-! ## Step 2: personal-detail verification -/

/-- `handleStep2`. -/
def handleStep2 (db : DB) (now : Nat) (freshToken : String)
    (step1Token firstname lastname dob : Option String) : Response × DB :=
  if falsy step1Token then (errResponse 400 "MISSING_STEP1_TOKEN", db)
  else
    match getValidationToken db now (step1Token.getD "") with
    | Except.error TokenErr.expired => (errResponse 400 "TOKEN_EXPIRED", db)
    | Except.error TokenErr.corrupt => (errResponse 400 "TOKEN_DATA_ERROR", db)
    | Except.error TokenErr.notFound =>
      (errResponse 400 "INVALID_STEP1_TOKEN", db)
    | Except.ok d =>
      if d.step ≠ 1 then (errResponse 400 "INVALID_STEP1_TOKEN", db)
      else if falsy firstname || falsy lastname || falsy dob then
        (errResponse 400 "MISSING_PERSONAL_INFO", db)
      else
        let nf := norm (firstname.getD "")
        let nl := norm (lastname.getD "")
        let dobv := dob.getD ""
        match db.heroes.filter (fun h =>
          norm h.firstname == nf && norm h.lastname == nl &&
          h.dob == dobv && norm h.afpsn == d.afpsn && h.typ == d.typ) with
        | [] => (errResponse 401 "PERSONAL_INFO_MISMATCH", db)
        | heroData :: rest =>
          if !rest.isEmpty then (errResponse 409 "DUPLICATE_RECORDS", db)
          else
            let d2 :=
              { d with
                firstname := some nf
                lastname := some nl
                dob := some dobv
                hero_ndx := some heroData.ndx
                hero_ctrl_nr := some heroData.ctrlnr
                step := 2 }
            ({ successResponse with
                token := some freshToken
                validUntil := some (now + 7200000) },
             storeValidationToken db now freshToken d2 2)

/-! ## Step 3: credential creation -/

/-- Database operations observable in a step-3 run, used to state where
each operation falls relative to the transaction boundaries. -/
inductive Ev
  | checkEmail
  | checkHero
  | txBegin
  | insPensioner
  | insUser
  | txCommit
  | txRollback
deriving Repr, DecidableEq

/-- The events strictly between the first `txBegin` and the following
`txCommit`: the operations executed inside the transaction. -/
def txnSegment (tr : List Ev) : List Ev :=
  ((tr.dropWhile (fun e => !(e == Ev.txBegin))).drop 1).takeWhile
    (fun e => !(e == Ev.txCommit))

/-- SQL `p.hero_ndx = ?` with the token's `hero_ndx` as parameter
(`NULL` never compares equal). -/
def heroRef (pref dref : Option Nat) : Bool :=
  match dref with
  | Option.some n => pref == some n
  | Option.none => false

/-- The `users_tbl ⋈ pensioners_tbl` join of step 3's claimed-record
check. -/
def accountsForHero (db : DB) (hn : Option Nat) : List UserRow :=
  db.users.filter (fun u =>
    db.pensioners.any (fun p =>
      p.id == u.pensioner_ndx && heroRef p.hero_ndx hn))

/-- Result of the read-only prefix of `handleStep3` (everything before
`getConnection`). -/
structure ChecksOut where
  d : TokenData
  email : String
  pw : String
  trace : List Ev
deriving Repr, DecidableEq

/-- The token, field, email, password and uniqueness checks of
`handleStep3`, in source order.  All of them run on the shared pool
(`executeQuery`), before any transaction is opened. -/
def step3Checks (db : DB) (now : Nat) (isEmail : String → Bool)
    (step2Token email password : Option String) :
    Except (Response × List Ev) ChecksOut :=
  match step2Token with
  | Option.none => Except.error (errResponse 400 "INVALID_STEP2_TOKEN", [])
  | Option.some tok =>
    match getValidationToken db now tok with
    | Except.error _ =>
      Except.error (errResponse 400 "INVALID_STEP2_TOKEN", [])
    | Except.ok d =>
      if d.step ≠ 2 then
        Except.error (errResponse 400 "INVALID_STEP2_TOKEN", [])
      else if falsy email || falsy password then
        Except.error (errResponse 400 "MISSING_CREDENTIALS", [])
      else
        let e := email.getD ""
        let pw := password.getD ""
        if !(isEmail e) then
          Except.error (errResponse 400 "INVALID_EMAIL", [])
        else if filterPassword pw ≠ pw then
          Except.error (errResponse 400 "INVALID_PASSWORD_CHARS", [])
        else if !(validatePasswordStrength (filterPassword pw)).isValid then
          Except.error (errResponse 400 "WEAK_PASSWORD", [])
        else
          let ne := jsTrim (jsLower e)
          if !(db.users.filter (fun u => u.email == ne)).isEmpty then
            Except.error (errResponse 409 "EMAIL_EXISTS", [Ev.checkEmail])
          else if !(accountsForHero db d.hero_ndx).isEmpty then
            Except.error (errResponse 409 "HERO_ACCOUNT_EXISTS",
              [Ev.checkEmail, Ev.checkHero])
          else Except.ok
            { d := d
              email := ne
              pw := pw
              trace := [Ev.checkEmail, Ev.checkHero] }

/-- Injected database failure during the transaction, modelling a driver
error thrown by one of the two inserts. -/
inductive FailMode
  | none
  | failPensionerInsert
  | failUserInsert
deriving Repr, DecidableEq

/-- `MAX(id) + 1`: the auto-increment id assigned to a fresh row. -/
def nextId (ids : List Nat) : Nat := ids.foldr max 0 + 1

structure Step3Out where
  resp : Response
  db : DB
  trace : List Ev
deriving Repr, DecidableEq

/-- The transactional tail of `handleStep3`: begin, insert the pensioner
row, insert the user row (status `'UNV'`), commit; an insert failure
rolls the transaction back, leaving the database unchanged, and the
rethrown error is answered by the route wrapper with a 500
`STEP3_ERROR`.  The successful 201 response reports `status: 'ACTIVE'`
verbatim from the source. -/
def step3Txn (db : DB) (hashFn : String → String) (failMode : FailMode)
    (d : TokenData) (ne pw : String) : Step3Out :=
  match failMode with
  | FailMode.failPensionerInsert =>
    { resp := errResponse 500 "STEP3_ERROR"
      db := db
      trace := [Ev.txBegin, Ev.txRollback] }
  | FailMode.failUserInsert =>
    { resp := errResponse 500 "STEP3_ERROR"
      db := db
      trace := [Ev.txBegin, Ev.insPensioner, Ev.txRollback] }
  | FailMode.none =>
    let pensionerId := nextId (db.pensioners.map (fun p => p.id))
    let prow : Pensioner :=
      { id := pensionerId
        hero_ndx := d.hero_ndx
        typ := d.typ
        bos := d.bos
        b_type := d.b_type
        principal_firstname := d.principal_first_name
        principal_lastname := d.principal_last_name }
    let userId := nextId (db.users.map (fun u => u.id))
    let urow : UserRow :=
      { id := userId
        pensioner_ndx := pensionerId
        email := ne
        password_hash := hashFn pw
        status := "UNV" }
    { resp :=
        { successResponse with
          status := 201
          userId := some userId
          userEmail := some ne
          userStatus := some "ACTIVE" }
      db :=
        { db with
          pensioners := db.pensioners ++ [prow]
          users := db.users ++ [urow] }
      trace := [Ev.txBegin, Ev.insPensioner, Ev.insUser, Ev.txCommit] }

/-- `handleStep3`: the checks followed by the transaction. -/
def handleStep3 (db : DB) (now : Nat) (isEmail : String → Bool)
    (hashFn : String → String) (failMode : FailMode)
    (step2Token email password : Option String) : Step3Out :=
  match step3Checks db now isEmail step2Token email password with
  | Except.error (r, tr) => { resp := r, db := db, trace := tr }
  | Except.ok c =>
    let o := step3Txn db hashFn failMode c.d c.email c.pw
    { resp := o.resp, db := o.db, trace := c.trace ++ o.trace }

/-- Two step-3 requests racing on the same database snapshot: each runs
its (unlocked, pool-level) checks against `db`, then the first
transaction commits, then the second.  This is a legal interleaving of
the source's operations, since nothing orders another request's reads
before this request's transaction. -/
def runStep3Interleaved (db : DB) (now : Nat) (isEmail : String → Bool)
    (hashFn : String → String) (tok1 e1 pw1 tok2 e2 pw2 : Option String) :
    Option (Response × Response × DB) :=
  match step3Checks db now isEmail tok1 e1 pw1,
        step3Checks db now isEmail tok2 e2 pw2 with
  | Except.ok c1, Except.ok c2 =>
    let o1 := step3Txn db hashFn FailMode.none c1.d c1.email c1.pw
    let o2 := step3Txn o1.db hashFn FailMode.none c2.d c2.email c2.pw
    some (o1.resp, o2.resp, o2.db)
  | _, _ => none

/-! ## Login -/

/-- The `users_tbl ⋈ pensioners_tbl ⋈ test_table` join of the login
lookup, in join order, restricted to a normalized email. -/
def loginRows (db : DB) (ne : String) :
    List (UserRow × Pensioner × Hero) :=
  (db.users.filter (fun u => u.email == ne)).flatMap (fun u =>
    (db.pensioners.filter (fun p => p.id == u.pensioner_ndx)).flatMap (fun p =>
      (db.heroes.filter (fun h => p.hero_ndx == some h.ndx)).map
        (fun h => (u, p, h))))

/-- The `POST /login` handler.  `verify` stands for `bcrypt.compare`. -/
def login (db : DB) (isEmail : String → Bool)
    (verify : String → String → Bool) (email password : Option String) :
    Response :=
  if falsy email || falsy password then
    errResponse 400 "MISSING_CREDENTIALS"
  else
    let e := email.getD ""
    let pw := password.getD ""
    if !(isEmail e) then errResponse 400 "INVALID_EMAIL"
    else
      let ne := jsTrim (jsLower e)
      match (loginRows db ne).head? with
      | Option.none => errResponse 401 "INVALID_CREDENTIALS"
      | Option.some (u, _, _) =>
        if u.status == "SUS" then errResponse 403 "ACCOUNT_SUSPENDED"
        else if !(verify pw u.password_hash) then
          errResponse 401 "INVALID_CREDENTIALS"
        else
          { successResponse with
            userId := some u.id
            userEmail := some u.email
            userStatus := some "ACTIVE" }

/-! ## Concrete fixtures used by witnesses and counterexamples -/

/-- A registry record. -/
def heroJuan : Hero :=
  { ndx := 1, firstname := "JUAN", lastname := "CRUZ", afpsn := "S1",
    dob := "1950-01-01", typ := "P", ctrlnr := "C1" }

/-- A second registry record with the same serial and category as
`heroJuan` but a different person. -/
def heroPedro : Hero :=
  { ndx := 2, firstname := "PEDRO", lastname := "REYES", afpsn := "S1",
    dob := "1960-02-02", typ := "P", ctrlnr := "C2" }

/-- The payload of a legitimate step-1 token for serial "S1", category
Principal. -/
def step1Payload : TokenData :=
  { typ := "P", afpsn := "S1", bos := some "AF", b_type := none,
    principal_first_name := none, principal_last_name := none, step := 1,
    firstname := none, lastname := none, dob := none,
    hero_ndx := none, hero_ctrl_nr := none }

/-- The payload of a legitimate step-2 token for `heroJuan`. -/
def step2Payload : TokenData :=
  { typ := "P", afpsn := "S1", bos := some "AF", b_type := none,
    principal_first_name := none, principal_last_name := none, step := 2,
    firstname := some "JUAN", lastname := some "CRUZ",
    dob := some "1950-01-01", hero_ndx := some 1, hero_ctrl_nr := some "C1" }

/-- Instantiation of the external `validator.isEmail` accepting the
concrete addresses used below. -/
def anyEmail : String → Bool := fun _ => true

/-- Instantiation of the external `bcrypt.hash`. -/
def idHash : String → String := fun s => s

/-- Instantiation of the external `bcrypt.compare` matching `idHash`. -/
def eqVerify : String → String → Bool := fun p h => p == h

/-- A password satisfying every rule of the policy. -/
def passwordOk : String := "Xy12!@qw"

def dbC4 : DB :=
  { heroes := [heroJuan], pensioners := [], users := [], tokens := [] }

def dbC4b : DB :=
  (handleStep1 dbC4 1000 "tk" (some "P") (some "S1") (some "AF")
    none none none).2

def dbC3 : DB :=
  { heroes := [heroJuan, heroPedro], pensioners := [], users := [],
    tokens := [] }

def dbC1 : DB :=
  { heroes := [heroJuan], pensioners := [], users := [],
    tokens := [{ token := "t2", data := some step2Payload,
                 expires_at := 1000, created_at := 0 }] }

/-- The checks output of the successful step-3 run on `dbC1`. -/
def cPass : ChecksOut :=
  { d := step2Payload, email := "a@x.com", pw := passwordOk,
    trace := [Ev.checkEmail, Ev.checkHero] }

def dbC2 : DB :=
  { heroes := [heroJuan], pensioners := [], users := [],
    tokens := [{ token := "ta", data := some step2Payload,
                 expires_at := 1000, created_at := 0 },
               { token := "tb", data := some step2Payload,
                 expires_at := 1000, created_at := 0 }] }

def dbC5 : DB :=
  { heroes := [], pensioners := [], users := [],
    tokens := [{ token := "t1", data := some step2Payload,
                 expires_at := 100, created_at := 0 },
               { token := "t2", data := none,
                 expires_at := 500, created_at := 0 }] }

def dbC6 : DB :=
  { heroes := [heroJuan], pensioners := [], users := [],
    tokens := [{ token := "t1", data := some step1Payload,
                 expires_at := 1000, created_at := 0 }] }

/-- A registry record that is a full duplicate of `heroJuan` (same
name, birth date, serial and category) under a different index. -/
def heroJuanDup : Hero :=
  { ndx := 3, firstname := "JUAN", lastname := "CRUZ", afpsn := "S1",
    dob := "1950-01-01", typ := "P", ctrlnr := "C3" }

/-- A database whose registry holds two records matching JUAN CRUZ's
full identity, with a step-1 token already issued. -/
def dbDup : DB :=
  { heroes := [heroJuan, heroJuanDup], pensioners := [], users := [],
    tokens := [{ token := "t1", data := some step1Payload,
                 expires_at := 1000, created_at := 0 }] }

/-- A profile row linked to `heroJuan`. -/
def pen1 : Pensioner :=
  { id := 1, hero_ndx := some 1, typ := "P", bos := some "AF",
    b_type := none, principal_firstname := none,
    principal_lastname := none }

/-- A suspended credential row. -/
def userSus : UserRow :=
  { id := 1, pensioner_ndx := 1, email := "sus@x.com",
    password_hash := "pw", status := "SUS" }

/-- An unverified credential row. -/
def userUnv : UserRow :=
  { id := 2, pensioner_ndx := 1, email := "unv@x.com",
    password_hash := "pw", status := "UNV" }

/-- A database with one suspended and one unverified account, both
linked through `pen1` to `heroJuan`. -/
def dbLogin : DB :=
  { heroes := [heroJuan], pensioners := [pen1],
    users := [userSus, userUnv], tokens := [] }


/-! ## C7: password policy -/

/-- C7: the password strength validator rejects every password of
length 7; accepts the 8-character password "Xy12!@qw", which contains a
letter, a digit and a special character; rejects "aaaaaaaa1!" with the
repeated-character rule as the only violated rule; and rejects
"password1!" with the common-pattern rule as the only violated rule. -/
theorem c7_password_policy :
    (∀ p : String, p.length = 7 →
      (validatePasswordStrength p).isValid = false)
    ∧ ("Xy12!@qw".length = 8
       ∧ (validatePasswordStrength "Xy12!@qw").isValid = true)
    ∧ ((validatePasswordStrength "aaaaaaaa1!").isValid = false
       ∧ (validatePasswordStrength "aaaaaaaa1!").errors
           = [PwError.repeatedChars])
    ∧ ((validatePasswordStrength "password1!").isValid = false
       ∧ (validatePasswordStrength "password1!").errors
           = [PwError.commonPattern]) := by
  refine ⟨?_, by decide, by decide, by decide⟩
  intro p h
  simp [validatePasswordStrength, h]

/-- Witness for C7 at the concrete length-7 password "abcdefg". -/
theorem c7_password_policy_witness :
    "abcdefg".length = 7
    ∧ (validatePasswordStrength "abcdefg").isValid = false :=
  ⟨by decide, c7_password_policy.1 "abcdefg" (by decide)⟩

/-! ## C4: token TTLs -/

/-- C4: evaluated at issue time 1000, step 1 stores its token with
`expires_at = 1000 + 7200000` (two hours: the call site omits the hours
argument, so the default of 2 applies) while the same response's
`validUntil` metadata advertises `1000 + 3600000` (one hour); the step-2
token is stored with the claimed two-hour expiry. -/
theorem c4_step1_token_stored_ttl :
    (((handleStep1 dbC4 1000 "tk" (some "P") (some "S1") (some "AF")
        none none none).2.tokens.map (fun r => (r.token, r.expires_at)))
      = [("tk", 1000 + 7200000)])
    ∧ ((handleStep1 dbC4 1000 "tk" (some "P") (some "S1") (some "AF")
        none none none).1.validUntil = some (1000 + 3600000))
    ∧ ((((handleStep2 dbC4b 2000 "tk2" (some "tk") (some "Juan")
        (some "Cruz") (some "1950-01-01")).2.tokens.filter
          (fun r => r.token == "tk2")).map (fun r => r.expires_at))
      = [2000 + 7200000]) := by decide

/-! ## C3: multiple registry matches at step 1 -/

/-- C3 counterexample: with two registry records sharing serial "S1" and
category "P", step 1 nevertheless succeeds, issues its token and reports
`recordsFound = 2` — it never returns a MultipleMatches outcome. -/
theorem c3_counterexample :
    (dbC3.heroes.countP (fun h => norm h.afpsn == "S1" && h.typ == "P") = 2)
    ∧ ((handleStep1 dbC3 0 "tk" (some "P") (some "S1") (some "AF")
        none none none).1.success = true)
    ∧ ((handleStep1 dbC3 0 "tk" (some "P") (some "S1") (some "AF")
        none none none).1.token = some "tk")
    ∧ ((handleStep1 dbC3 0 "tk" (some "P") (some "S1") (some "AF")
        none none none).1.recordsFound = some 2) := by decide

/-! ## C1: transaction boundaries in step 3 -/

/-- C1 counterexample: in a successful concrete step-3 run the trace is
the two uniqueness checks followed by begin/insert/insert/commit, and
neither check lies inside the transaction segment — the re-checks
execute before `beginTransaction`, not inside the transaction. -/
theorem c1_counterexample :
    ((handleStep3 dbC1 100 anyEmail idHash FailMode.none (some "t2")
        (some "a@x.com") (some passwordOk)).trace
      = [Ev.checkEmail, Ev.checkHero, Ev.txBegin, Ev.insPensioner,
         Ev.insUser, Ev.txCommit])
    ∧ ((handleStep3 dbC1 100 anyEmail idHash FailMode.none (some "t2")
        (some "a@x.com") (some passwordOk)).resp.status = 201)
    ∧ (Ev.checkEmail ∉ txnSegment ((handleStep3 dbC1 100 anyEmail idHash
        FailMode.none (some "t2") (some "a@x.com") (some passwordOk)).trace))
    ∧ (Ev.checkHero ∉ txnSegment ((handleStep3 dbC1 100 anyEmail idHash
        FailMode.none (some "t2") (some "a@x.com") (some passwordOk)).trace)) := by
  decide

/-! ## C2: the step-3 race -/

/-- C2: the race property fails on the code — in the interleaving where
two step-3 requests whose tokens both reference registry record 1 run
their (pool-level, untransacted) existence checks before either
transaction commits, both requests receive 201 and the final database
holds two pensioner rows referencing registry record 1. -/
theorem c2_race_both_succeed :
    ((runStep3Interleaved dbC2 100 anyEmail idHash
        (some "ta") (some "a@x.com") (some passwordOk)
        (some "tb") (some "b@x.com") (some passwordOk)).map
      (fun o => (o.1.status, o.2.1.status,
        o.2.2.pensioners.countP (fun p => p.hero_ndx == some 1))))
      = some (201, 201, 2) := by decide

/-! ## C5: token resolution outcomes -/

/-- C5: resolving a token value fails NotFound when no row carries that
value, fails Expired (a distinct outcome) when rows exist but every row
with that value has passed its expiry, and fails Corrupt when the live
row selected for the value has an undeserializable payload. -/
theorem c5_token_resolution (db : DB) (now : Nat) (t : String) :
    (db.tokens.filter (fun r => r.token == t) = [] →
      getValidationToken db now t = Except.error TokenErr.notFound)
    ∧ (db.tokens.filter (fun r => r.token == t) ≠ [] →
       (∀ r ∈ db.tokens, r.token = t → r.expires_at ≤ now) →
      getValidationToken db now t = Except.error TokenErr.expired)
    ∧ (∀ (r : TokenRow) (rest : List TokenRow),
       db.tokens.filter
         (fun r => r.token == t && decide (now < r.expires_at)) = r :: rest →
       r.data = none →
      getValidationToken db now t = Except.error TokenErr.corrupt) := by
  refine ⟨?_, ?_, ?_⟩
  · intro h
    have hB : db.tokens.filter
        (fun r => r.token == t && decide (now < r.expires_at)) = [] := by
      rw [List.filter_eq_nil_iff] at h ⊢
      intro a ha hcon
      rw [Bool.and_eq_true] at hcon
      exact h a ha hcon.1
    simp [getValidationToken, hB, h]
  · intro hne hexp
    have hB : db.tokens.filter
        (fun r => r.token == t && decide (now < r.expires_at)) = [] := by
      rw [List.filter_eq_nil_iff]
      intro a ha hcon
      rw [Bool.and_eq_true] at hcon
      have h1 : a.token = t := by simpa using hcon.1
      have h2 : now < a.expires_at := by simpa using hcon.2
      exact absurd (hexp a ha h1) (by omega)
    cases hA : db.tokens.filter (fun r => r.token == t) with
    | nil => exact absurd hA hne
    | cons r rest => simp [getValidationToken, hB, hA]
  · intro r rest hB hdata
    simp [getValidationToken, hB, hdata]

/-- Witness for C5: at time 200, an absent value resolves NotFound, the
expired row "t1" resolves Expired, and the live corrupt row "t2"
resolves Corrupt. -/
theorem c5_token_resolution_witness :
    getValidationToken dbC5 200 "t0" = Except.error TokenErr.notFound
    ∧ getValidationToken dbC5 200 "t1" = Except.error TokenErr.expired
    ∧ getValidationToken dbC5 200 "t2" = Except.error TokenErr.corrupt :=
  ⟨(c5_token_resolution dbC5 200 "t0").1 (by decide),
   (c5_token_resolution dbC5 200 "t1").2.1 (by decide) (by decide),
   (c5_token_resolution dbC5 200 "t2").2.2
     { token := "t2", data := none, expires_at := 500, created_at := 0 }
     [] (by decide) rfl⟩

/-! ## C6: step-2 mismatch -/

/-- C6: when the registry holds exactly one record for the serial and
category carried by the step-1 token, and the supplied first name, last
name or date of birth does not match that record after trim-and-uppercase
normalization, step 2 answers 401 PERSONAL_INFO_MISMATCH and returns the
database unchanged, so no step-2 token is issued or stored. -/
theorem c6_step2_mismatch (db : DB) (now : Nat) (ft tok fn ln dob : String)
    (d : TokenData) (r : Hero)
    (hresolve : getValidationToken db now tok = Except.ok d)
    (hstep : d.step = 1)
    (htok : tok ≠ "") (hfn : fn ≠ "") (hln : ln ≠ "") (hdob : dob ≠ "")
    (hsel : db.heroes.filter
      (fun h => norm h.afpsn == d.afpsn && h.typ == d.typ) = [r])
    (hmis : ¬(norm r.firstname = norm fn ∧ norm r.lastname = norm ln
              ∧ r.dob = dob)) :
    (handleStep2 db now ft (some tok) (some fn) (some ln) (some dob)).1
      = errResponse 401 "PERSONAL_INFO_MISMATCH"
    ∧ (handleStep2 db now ft (some tok) (some fn) (some ln) (some dob)).2
      = db := by
  have hfull : db.heroes.filter (fun h =>
      norm h.firstname == norm fn && norm h.lastname == norm ln &&
      h.dob == dob && norm h.afpsn == d.afpsn && h.typ == d.typ) = [] := by
    rw [List.filter_eq_nil_iff]
    intro h hmem hcon
    simp only [Bool.and_eq_true, beq_iff_eq] at hcon
    obtain ⟨⟨⟨⟨h1, h2⟩, h3⟩, h4⟩, h5⟩ := hcon
    have hr : h = r := by
      have hin : h ∈ db.heroes.filter
          (fun h => norm h.afpsn == d.afpsn && h.typ == d.typ) := by
        rw [List.mem_filter]
        exact ⟨hmem, by simp [h4, h5]⟩
      rw [hsel] at hin
      simpa using hin
    subst hr
    exact hmis ⟨h1, h2, h3⟩
  constructor <;>
    simp [handleStep2, falsy, htok, hfn, hln, hdob, hresolve, hstep, hfull]

/-- Witness for C6: the single record for serial "S1" is JUAN CRUZ, and
a step-2 attempt as "Maria" is refused with 401 and stores nothing. -/
theorem c6_step2_mismatch_witness :
    (handleStep2 dbC6 100 "tk2" (some "t1") (some "Maria") (some "Cruz")
      (some "1950-01-01")).1 = errResponse 401 "PERSONAL_INFO_MISMATCH"
    ∧ (handleStep2 dbC6 100 "tk2" (some "t1") (some "Maria") (some "Cruz")
      (some "1950-01-01")).2 = dbC6 :=
  c6_step2_mismatch dbC6 100 "tk2" "t1" "Maria" "Cruz" "1950-01-01"
    step1Payload heroJuan rfl rfl (by decide) (by decide)
    (by decide) (by decide) (by decide) (by decide)

/-! ## C9: the suspension gate -/

/-- C9: a login naming a suspended account answers 403
ACCOUNT_SUSPENDED for every password and every bcrypt-compare oracle:
the suspension gate runs before password verification, so the response
does not depend on the supplied password. -/
theorem c9_login_suspended (db : DB) (isEmail : String → Bool)
    (verify : String → String → Bool) (email pw : String)
    (u : UserRow) (p : Pensioner) (h : Hero)
    (hemail : email ≠ "") (hpw : pw ≠ "")
    (hvalid : isEmail email = true)
    (hfound : (loginRows db (jsTrim (jsLower email))).head?
      = some (u, p, h))
    (hsus : u.status = "SUS") :
    login db isEmail verify (some email) (some pw)
      = errResponse 403 "ACCOUNT_SUSPENDED" := by
  simp [login, falsy, hemail, hpw, hvalid, hfound, hsus]

/-- Witness for C9: the suspended account is rejected 403 even with the
correct password (`eqVerify "pw" "pw" = true`). -/
theorem c9_login_suspended_witness :
    login dbLogin anyEmail eqVerify (some "sus@x.com") (some "pw")
      = errResponse 403 "ACCOUNT_SUSPENDED" :=
  c9_login_suspended dbLogin anyEmail eqVerify "sus@x.com" "pw"
    userSus pen1 heroJuan (by decide) (by decide) rfl (by decide) rfl

/-! ## C8: login uniformity -/

/-- C8 counterexample: with the suspended account "sus@x.com" in the
database, a login with that existing email and a wrong password answers
403 ACCOUNT_SUSPENDED while a login with a nonexistent email answers
401 INVALID_CREDENTIALS — the two responses differ in both code and
HTTP status, so the claim without a non-suspension qualifier is false. -/
theorem c8_counterexample :
    (login dbLogin anyEmail eqVerify (some "ghost@x.com") (some "x")
      = errResponse 401 "INVALID_CREDENTIALS")
    ∧ (login dbLogin anyEmail eqVerify (some "sus@x.com") (some "wrong")
      = errResponse 403 "ACCOUNT_SUSPENDED")
    ∧ (login dbLogin anyEmail eqVerify (some "sus@x.com") (some "wrong")
      ≠ login dbLogin anyEmail eqVerify (some "ghost@x.com") (some "x")) := by
  decide

/-- C8 amended: restricted to accounts that are not suspended, a
nonexistent email and an existing email with a wrong password produce
identical responses: 401 with code INVALID_CREDENTIALS in both cases. -/
theorem c8_login_uniform (db : DB) (isEmail : String → Bool)
    (verify : String → String → Bool) (e1 p1 e2 p2 : String)
    (u : UserRow) (pr : Pensioner) (hr : Hero)
    (he1 : e1 ≠ "") (hp1 : p1 ≠ "") (he2 : e2 ≠ "") (hp2 : p2 ≠ "")
    (hv1 : isEmail e1 = true) (hv2 : isEmail e2 = true)
    (hnone : (loginRows db (jsTrim (jsLower e1))).head? = Option.none)
    (hfound : (loginRows db (jsTrim (jsLower e2))).head?
      = some (u, pr, hr))
    (hnotsus : u.status ≠ "SUS")
    (hwrong : verify p2 u.password_hash = false) :
    login db isEmail verify (some e1) (some p1)
      = errResponse 401 "INVALID_CREDENTIALS"
    ∧ login db isEmail verify (some e2) (some p2)
      = errResponse 401 "INVALID_CREDENTIALS" := by
  constructor
  · simp [login, falsy, he1, hp1, hv1, hnone]
  · simp [login, falsy, he2, hp2, hv2, hfound, hnotsus, hwrong]

/-- Witness for C8 amended: the unverified account "unv@x.com" with a
wrong password and the absent "ghost@x.com" both answer 401
INVALID_CREDENTIALS. -/
theorem c8_login_uniform_witness :
    login dbLogin anyEmail eqVerify (some "ghost@x.com") (some "x")
      = errResponse 401 "INVALID_CREDENTIALS"
    ∧ login dbLogin anyEmail eqVerify (some "unv@x.com") (some "wrong")
      = errResponse 401 "INVALID_CREDENTIALS" :=
  c8_login_uniform dbLogin anyEmail eqVerify "ghost@x.com" "x"
    "unv@x.com" "wrong" userUnv pen1 heroJuan (by decide) (by decide)
    (by decide) (by decide) rfl rfl (by decide) (by decide) (by decide)
    (by decide)

/-- Helper: a step-3 run whose checks pass has recorded exactly the two
uniqueness checks, in order, before any transaction event. -/
theorem step3Checks_ok_trace (db : DB) (now : Nat) (isEmail : String → Bool)
    (tok e pw : Option String) (c : ChecksOut)
    (h : step3Checks db now isEmail tok e pw = Except.ok c) :
    c.trace = [Ev.checkEmail, Ev.checkHero] := by
  unfold step3Checks at h
  repeat' split at h
  all_goals simp_all
  all_goals repeat' split at h
  all_goals simp_all
  all_goals rw [← h]

/-- C1 amended: in every step-3 run that reaches the transaction, the
two inserts (pensioner row then user row) are exactly the operations
inside the transaction, the two uniqueness re-checks run before
`txBegin` (outside the transaction), and a failure of either insert
rolls the transaction back, leaving the database unchanged and
answering 500 STEP3_ERROR. -/
theorem c1_txn_inserts_atomic (db : DB) (now : Nat)
    (isEmail : String → Bool) (hashFn : String → String)
    (tok e pw : Option String) (c : ChecksOut)
    (hchecks : step3Checks db now isEmail tok e pw = Except.ok c) :
    ((handleStep3 db now isEmail hashFn FailMode.none tok e pw).trace
      = [Ev.checkEmail, Ev.checkHero, Ev.txBegin, Ev.insPensioner,
         Ev.insUser, Ev.txCommit]
     ∧ txnSegment ((handleStep3 db now isEmail hashFn FailMode.none
        tok e pw).trace) = [Ev.insPensioner, Ev.insUser])
    ∧ (∀ fm : FailMode, fm ≠ FailMode.none →
        (handleStep3 db now isEmail hashFn fm tok e pw).db = db
        ∧ (handleStep3 db now isEmail hashFn fm tok e pw).resp
          = errResponse 500 "STEP3_ERROR") := by
  have htr := step3Checks_ok_trace db now isEmail tok e pw c hchecks
  have htrace : (handleStep3 db now isEmail hashFn FailMode.none
      tok e pw).trace
      = [Ev.checkEmail, Ev.checkHero, Ev.txBegin, Ev.insPensioner,
         Ev.insUser, Ev.txCommit] := by
    simp [handleStep3, hchecks, step3Txn, htr]
  refine ⟨⟨htrace, ?_⟩, ?_⟩
  · rw [htrace]; rfl
  · intro fm hfm
    cases fm with
    | none => exact absurd rfl hfm
    | failPensionerInsert =>
      exact ⟨by simp [handleStep3, hchecks, step3Txn],
             by simp [handleStep3, hchecks, step3Txn]⟩
    | failUserInsert =>
      exact ⟨by simp [handleStep3, hchecks, step3Txn],
             by simp [handleStep3, hchecks, step3Txn]⟩

/-- Witness for C1 amended at the concrete run on `dbC1`. -/
theorem c1_txn_inserts_atomic_witness :
    txnSegment ((handleStep3 dbC1 100 anyEmail idHash FailMode.none
      (some "t2") (some "a@x.com") (some passwordOk)).trace)
      = [Ev.insPensioner, Ev.insUser]
    ∧ (handleStep3 dbC1 100 anyEmail idHash FailMode.failUserInsert
      (some "t2") (some "a@x.com") (some passwordOk)).db = dbC1 :=
  ⟨(c1_txn_inserts_atomic dbC1 100 anyEmail idHash (some "t2")
      (some "a@x.com") (some passwordOk) cPass rfl).1.2,
   ((c1_txn_inserts_atomic dbC1 100 anyEmail idHash (some "t2")
      (some "a@x.com") (some passwordOk) cPass rfl).2
      FailMode.failUserInsert (by decide)).1⟩

/-! ## C10: stored UNV, reported ACTIVE -/

/-- C10: every account created by a step-3 run that reaches the
transaction is stored with credential status 'UNV' while the 201
response reports status 'ACTIVE'; and a login for a 'UNV' account with
the correct password succeeds (only status 'SUS' blocks login) and also
reports status 'ACTIVE'. -/
theorem c10_unv_stored_active_reported :
    (∀ (db : DB) (now : Nat) (isEmail : String → Bool)
       (hashFn : String → String) (tok e pw : Option String)
       (c : ChecksOut),
      step3Checks db now isEmail tok e pw = Except.ok c →
      (handleStep3 db now isEmail hashFn FailMode.none tok e pw).resp.status
        = 201
      ∧ (handleStep3 db now isEmail hashFn FailMode.none tok e pw).resp.userStatus
        = some "ACTIVE"
      ∧ ∃ urow : UserRow,
          (handleStep3 db now isEmail hashFn FailMode.none tok e pw).db.users
            = db.users ++ [urow]
          ∧ urow.status = "UNV" ∧ urow.email = c.email)
    ∧ (∀ (db : DB) (isEmail : String → Bool)
       (verify : String → String → Bool) (email pw : String)
       (u : UserRow) (pr : Pensioner) (hr : Hero),
      email ≠ "" → pw ≠ "" → isEmail email = true →
      (loginRows db (jsTrim (jsLower email))).head? = some (u, pr, hr) →
      u.status = "UNV" → verify pw u.password_hash = true →
      (login db isEmail verify (some email) (some pw)).status = 200
      ∧ (login db isEmail verify (some email) (some pw)).success = true
      ∧ (login db isEmail verify (some email) (some pw)).userStatus
        = some "ACTIVE") := by
  constructor
  · intro db now isEmail hashFn tok e pw c hchecks
    refine ⟨by simp [handleStep3, hchecks, step3Txn],
            by simp [handleStep3, hchecks, step3Txn], ?_⟩
    refine ⟨{ id := nextId (db.users.map (fun u => u.id)),
              pensioner_ndx := nextId (db.pensioners.map (fun p => p.id)),
              email := c.email, password_hash := hashFn c.pw,
              status := "UNV" }, ?_, rfl, rfl⟩
    simp [handleStep3, hchecks, step3Txn]
  · intro db isEmail verify email pw u pr hr hemail hpw hvalid hfound
      hunv hverify
    have hnotsus : (u.status == "SUS") = false := by
      simp [hunv]
    refine ⟨?_, ?_, ?_⟩ <;>
      simp [login, falsy, hemail, hpw, hvalid, hfound, hnotsus, hverify,
        successResponse]

/-- Witness for C10: the concrete step-3 run on `dbC1` stores 'UNV' and
reports 'ACTIVE'; the 'UNV' account of `dbLogin` logs in successfully
with status reported 'ACTIVE'. -/
theorem c10_unv_stored_active_reported_witness :
    (handleStep3 dbC1 100 anyEmail idHash FailMode.none (some "t2")
      (some "a@x.com") (some passwordOk)).resp.userStatus = some "ACTIVE"
    ∧ (login dbLogin anyEmail eqVerify (some "unv@x.com")
      (some "pw")).userStatus = some "ACTIVE" :=
  ⟨(c10_unv_stored_active_reported.1 dbC1 100 anyEmail idHash
      (some "t2") (some "a@x.com") (some passwordOk) cPass rfl).2.1,
   (c10_unv_stored_active_reported.2 dbLogin anyEmail eqVerify
      "unv@x.com" "pw" userUnv pen1 heroJuan (by decide) (by decide)
      rfl (by decide) rfl (by decide)).2.2⟩

/-- C3 amended: step 1 does not detect multiple registry matches — for
any input whose serial and category match at least one registry record
(even several), with valid fields and no already-linked account, step 1
succeeds and issues its token, reporting the match count; the
zero-or-one-match enforcement happens at step 2, which answers 409
DUPLICATE_RECORDS (and stores nothing) when more than one record
matches the full identity. -/
theorem c3_step1_tolerates_multiple_matches :
    (∀ (db : DB) (now : Nat) (ft t a : String)
       (bos b_type pfn pln : Option String),
      t = "P" ∨ t = "B" → a ≠ "" →
      (t = "P" → ∃ s, bos = some s ∧ s ≠ "") →
      (t = "B" → (∃ s, b_type = some s ∧ s ≠ "")
        ∧ (∃ s, pfn = some s ∧ s ≠ "")
        ∧ (∃ s, pln = some s ∧ s ≠ "")) →
      1 ≤ db.heroes.countP
        (fun h => norm h.afpsn == norm a && h.typ == t) →
      accountsForAfpsn db (norm a) t = [] →
      (handleStep1 db now ft (some t) (some a) bos b_type
        pfn pln).1.success = true
      ∧ (handleStep1 db now ft (some t) (some a) bos b_type
        pfn pln).1.token = some ft
      ∧ (handleStep1 db now ft (some t) (some a) bos b_type
        pfn pln).1.recordsFound
          = some (db.heroes.countP
              (fun h => norm h.afpsn == norm a && h.typ == t)))
    ∧ (∀ (db : DB) (now : Nat) (ft tok fn ln dob : String)
       (d : TokenData),
      getValidationToken db now tok = Except.ok d →
      d.step = 1 → tok ≠ "" → fn ≠ "" → ln ≠ "" → dob ≠ "" →
      2 ≤ (db.heroes.filter (fun h =>
        norm h.firstname == norm fn && norm h.lastname == norm ln &&
        h.dob == dob && norm h.afpsn == d.afpsn
        && h.typ == d.typ)).length →
      (handleStep2 db now ft (some tok) (some fn) (some ln)
        (some dob)).1 = errResponse 409 "DUPLICATE_RECORDS"
      ∧ (handleStep2 db now ft (some tok) (some fn) (some ln)
        (some dob)).2 = db) := by
  constructor
  · intro db now ft t a bos b_type pfn pln hty ha hP hB hcount hnoacct
    have hane : (a == "") = false := by simp [ha]
    have hcne : ¬(db.heroes.countP
        (fun h => norm h.afpsn == norm a && h.typ == t) = 0) := by omega
    rcases hty with hP' | hB'
    · obtain ⟨s, hs, hsne⟩ := hP hP'
      subst hP'
      subst hs
      refine ⟨?_, ?_, ?_⟩ <;>
        simp [handleStep1, falsy, hane, hsne, hcne, hnoacct, successResponse]
    · obtain ⟨⟨s1, hs1, hs1ne⟩, ⟨s2, hs2, hs2ne⟩, ⟨s3, hs3, hs3ne⟩⟩ :=
        hB hB'
      subst hB'
      subst hs1
      subst hs2
      subst hs3
      refine ⟨?_, ?_, ?_⟩ <;>
        simp [handleStep1, falsy, hane, hs1ne, hs2ne, hs3ne, hcne, hnoacct,
          successResponse]
  · intro db now ft tok fn ln dob d hresolve hstep htok hfn hln hdob hmulti
    cases hl : db.heroes.filter (fun h =>
        norm h.firstname == norm fn && norm h.lastname == norm ln &&
        h.dob == dob && norm h.afpsn == d.afpsn && h.typ == d.typ) with
    | nil => rw [hl] at hmulti; simp at hmulti
    | cons h1 rest =>
      cases rest with
      | nil => rw [hl] at hmulti; simp at hmulti
      | cons h2 rest2 =>
        constructor <;>
          simp [handleStep2, falsy, htok, hfn, hln, hdob, hresolve,
            hstep, hl]

/-- Witness for C3 amended: on the duplicate-registry databases, step 1
reports two matches yet succeeds, and step 2 answers 409
DUPLICATE_RECORDS. -/
theorem c3_step1_tolerates_multiple_matches_witness :
    ((handleStep1 dbC3 0 "tk" (some "P") (some "S1") (some "AF")
      none none none).1.recordsFound = some 2)
    ∧ ((handleStep2 dbDup 100 "tk2" (some "t1") (some "Juan")
      (some "Cruz") (some "1950-01-01")).1
      = errResponse 409 "DUPLICATE_RECORDS") :=
  ⟨(c3_step1_tolerates_multiple_matches.1 dbC3 0 "tk" "P" "S1"
      (some "AF") none none none (Or.inl rfl) (by decide)
      (fun _ => ⟨"AF", rfl, by decide⟩)
      (fun hb => absurd hb (by decide)) (by decide) (by decide)).2.2,
   (c3_step1_tolerates_multiple_matches.2 dbDup 100 "tk2" "t1" "Juan"
      "Cruz" "1950-01-01" step1Payload rfl rfl (by decide) (by decide)
      (by decide) (by decide) (by decide)).1⟩

end HeroesApp
